import Mathlib

/-!
Shallow embedding of `src/word_shuffler.py` (a CLI vocabulary drill tool)
and verification of its specification claims.

Modelling conventions:
- a pandas cell is either a string or a non-string absent marker (NaN);
  `Cell.na` models every non-string value, `Cell.str` a string value;
- Python `str(...)` interpolation of a cell (f-strings) is `Cell.toPy`;
  `str(float(nan))` is the three-letter string nan;
- Python `str.strip()` is `pyStrip` (ASCII whitespace; the vocabulary
  domain uses no exotic Unicode space characters);
- `df.sample(n)` draws `n` rows uniformly without replacement: its
  possible results are characterised relationally by `IsSample`, and it
  raises a ValueError exactly when `n` exceeds the population size,
  modelled by `sampleRaises`;
- `random.shuffle` is modelled by quantifying over permutations of the
  list being shuffled;
- the pandas frame union performed by `pd.concat(..., ignore_index=True)`
  is `concatFrames`: the unified column set is the union of the per-source
  columns, and a row coming from a source lacking a column carries the
  absent marker `Cell.na` there.  Column order is modelled as order of
  first occurrence; no claim depends on column order.
-/

namespace WordShuffler

/-- A pandas cell: either a string value or a non-string absent marker
(NaN or any other non-string value). -/
inductive Cell where
  | na : Cell
  | str : String → Cell
deriving DecidableEq

/-- Whether the cell holds a string (Python `isinstance(x, str)`). -/
def Cell.isStr : Cell → Bool
  | Cell.na => false
  | Cell.str _ => true

/-- Python `str(...)` of a cell, as used by f-string interpolation:
a string renders as itself, the NaN marker renders as the word nan. -/
def Cell.toPy : Cell → String
  | Cell.na => "nan"
  | Cell.str s => s

/-- One row of the loaded table, as seen through `itertuples()`:
the five columns the program reads, each a cell. -/
structure Row where
  Article : Cell
  Word : Cell
  Plural : Cell
  Translation : Cell
  Category : Cell
deriving DecidableEq

/-- Python whitespace characters stripped by `str.strip()` (ASCII part). -/
def pyIsSpace (c : Char) : Bool :=
  c == ' ' || c == '\t' || c == '\n' || c == '\x0d' || c == '\x0b' || c == '\x0c'

/-- Python `str.strip()`: remove leading and trailing whitespace. -/
def pyStrip (s : String) : String :=
  String.mk (((s.data.dropWhile pyIsSpace).reverse.dropWhile pyIsSpace).reverse)

/-- Embedding of `_word_from_row(row, plural)`:
for `plural = false` the article is `row.Article` when it is a string and
empty otherwise, the word is `row.Word`; for `plural = true` the article
is the fixed definite-article token and the word is `row.Plural`.  A
non-string or empty word yields the empty string; otherwise the result
is the article, a space and the word, stripped of outer whitespace. -/
def wordFromRow (row : Row) (plural : Bool) : String :=
  let article : String :=
    if plural then "die"
    else match row.Article with
      | Cell.str a => a
      | Cell.na => ""
  let word : Cell := if plural then row.Plural else row.Word
  match word with
  | Cell.na => ""
  | Cell.str w => if w.length = 0 then "" else pyStrip (article ++ " " ++ w)

/-- Embedding of the loop body of `_mode_german` applied to the drawn
sample: one (test, expected) pair per sampled row. -/
def modeGerman (sample : List Row) (noShowCategory : Bool) : List (Cell × Cell) :=
  sample.map fun row =>
    let test : Cell :=
      if noShowCategory then Cell.str (wordFromRow row false)
      else Cell.str ("[" ++ row.Category.toPy ++ "] " ++ wordFromRow row false)
    (test, row.Translation)

/-- Embedding of the loop body of `_mode_translated` applied to the drawn
sample.  With the category shown, the test is an f-string (hence a
string); with `no_show_category` it is the raw Translation cell. -/
def modeTranslated (sample : List Row) (noShowCategory : Bool) : List (Cell × Cell) :=
  sample.map fun row =>
    let test : Cell :=
      if noShowCategory then row.Translation
      else Cell.str ("[" ++ row.Category.toPy ++ "] " ++ row.Translation.toPy)
    (test, Cell.str (wordFromRow row false))

/-- Tagging step of `_mode_both`: prefix the test component of a pair. -/
def tagPair (tag : String) (p : Cell × Cell) : Cell × Cell :=
  (Cell.str (tag ++ p.1.toPy), p.2)

/-- Embedding of `_mode_both` up to (but excluding) the final
`random.shuffle`: the german-mode batch on its own sample truncated to
its first half and tagged, concatenated with the translated-mode batch
on its own independent sample truncated and tagged.  The shuffle is
modelled by quantifying over permutations of this list. -/
def modeBothConcat (gSample tSample : List Row) (noShowCategory : Bool) :
    List (Cell × Cell) :=
  let listGerman := modeGerman gSample noShowCategory
  let listGerman := listGerman.take (listGerman.length / 2)
  let listGerman := listGerman.map (tagPair "(German) ")
  let listTranslated := modeTranslated tSample noShowCategory
  let listTranslated := listTranslated.take (listTranslated.length / 2)
  let listTranslated := listTranslated.map (tagPair "(Translated) ")
  listGerman ++ listTranslated

/-- Embedding of the loop body of `_mode_plural` applied to the drawn
sample: rows whose plural rendering is empty are skipped (`continue`). -/
def modePlural (sample : List Row) : List (Cell × Cell) :=
  sample.filterMap fun row =>
    let test := wordFromRow row false
    let expected := wordFromRow row true
    if expected.length = 0 then none
    else some (Cell.str test,
      Cell.str (expected ++ " (" ++ row.Translation.toPy ++ ")"))

/-- Embedding of the loop body of `_mode_article` applied to the drawn
sample: the test is the raw Word cell, the expected answer is the
rendered singular word. -/
def modeArticle (sample : List Row) : List (Cell × Cell) :=
  sample.map fun row => (row.Word, Cell.str (wordFromRow row false))

/-- Embedding of the loop body of `_mode_train` applied to the drawn
sample.  Note the capitalised category check: the plural rendering is
appended exactly when `row.Category` equals the capitalised word Noun. -/
def modeTrain (sample : List Row) (noShowCategory : Bool) : List (Cell × Cell) :=
  sample.map fun row =>
    let word := wordFromRow row false
    let word :=
      if row.Category = Cell.str "Noun"
      then word ++ ", " ++ wordFromRow row true
      else word
    let word :=
      if noShowCategory then word
      else "[" ++ row.Category.toPy ++ "] " ++ word
    (Cell.str word, row.Translation)

/-- Embedding of the noun filter of `_mode_plural` and `_mode_article`:
keep the rows whose Category cell equals the lowercase word noun
(case-sensitive; NaN never matches). -/
def nounFilter (df : List Row) : List Row :=
  df.filter fun row => decide (row.Category = Cell.str "noun")

/-- Relational model of `df.sample(n)` (uniform, without replacement):
`s` is a possible result when it has length `n` and is a permutation of
some sublist of the population. -/
def IsSample (pop : List Row) (n : Nat) (s : List Row) : Prop :=
  s.length = n ∧ ∃ t : List Row, t.Sublist pop ∧ s.Perm t

/-- Whether `df.sample(n)` raises: pandas raises a ValueError exactly
when `n` exceeds the population size (replace=False). -/
def sampleRaises (pop : List Row) (n : Nat) : Bool :=
  decide (pop.length < n)

/-- Embedding of the length adjustment in `_main`: an unset `--length`
becomes the table size, a set one is clamped to the table size. -/
def adjustLength (tableLen : Nat) (lengthArg : Option Nat) : Nat :=
  match lengthArg with
  | none => tableLen
  | some l => min tableLen l

/-- One source CSV as parsed by `pd.read_csv`: a header (column names)
and rows of raw string cells aligned with the header. -/
structure Frame where
  cols : List String
  rows : List (List String)
deriving DecidableEq

/-- The unified table produced by `pd.concat`: unified columns and rows
of cells (absent marker where a source lacked a column). -/
structure Table where
  cols : List String
  rows : List (List Cell)
deriving DecidableEq

/-- Position of column `c` in a column list, if present. -/
def colIdx (cols : List String) (c : String) : Option Nat :=
  match cols with
  | [] => none
  | a :: rest => if a = c then some 0 else (colIdx rest c).map (· + 1)

/-- Cell of source row `r` (from frame `f`) at column `c`: the raw value
when `f` has column `c`, the absent marker otherwise. -/
def cellOf (f : Frame) (r : List String) (c : String) : Cell :=
  match colIdx f.cols c with
  | some j =>
    match r[j]? with
    | some v => Cell.str v
    | none => Cell.na
  | none => Cell.na

/-- A source row re-expressed over the unified column list. -/
def alignRow (ucols : List String) (f : Frame) (r : List String) : List Cell :=
  ucols.map (cellOf f r)

/-- Deduplication keeping the first occurrence of each name, skipping
names already in `seen`. -/
def firstDedupAux (seen : List String) : List String → List String
  | [] => []
  | c :: rest =>
    if c ∈ seen then firstDedupAux seen rest
    else c :: firstDedupAux (c :: seen) rest

/-- Deduplication keeping first occurrences, in order (the column-union
order pandas uses with its default sort=False). -/
def firstDedup (l : List String) : List String :=
  firstDedupAux [] l

/-- Embedding of `pd.concat(df_list, ignore_index=True)` on a non-empty
list of frames: the unified column set is the union of all source
columns, and every source row is aligned to it. -/
def concatFrames (fs : List Frame) : Table :=
  let ucols := firstDedup ((fs.map Frame.cols).flatten)
  { cols := ucols
    rows := (fs.map fun f => f.rows.map (alignRow ucols f)).flatten }

/-- Log severity levels of the `logging` module. -/
inductive LogLevel where
  | debug | info | warning | error | critical
deriving DecidableEq

/-- One emitted log record: its level and the source file it concerns.
For the failed-read record the code emits
`logger.error` with the message naming the skipped file. -/
structure LogMsg where
  level : LogLevel
  src : String
deriving DecidableEq

/-- Embedding of `_read_csv_list(csv_list)`.  A source is given as its
path paired with `some frame` when `pd.read_csv` succeeds and `none`
when it raises.  Each failed source contributes one error-level log
record; `pd.concat` of an empty list raises, which surfaces as the
error result. -/
def readCsvList (csvList : List (String × Option Frame)) :
    Except String Table × List LogMsg :=
  let dfList := csvList.filterMap Prod.snd
  let logs := csvList.filterMap fun s =>
    match s.2 with
    | none => some { level := LogLevel.error, src := s.1 }
    | some _ => none
  (if dfList.isEmpty then Except.error "No objects to concatenate"
   else Except.ok (concatFrames dfList), logs)

/-- Whether an `Except` result is a success. -/
def exceptIsOk : Except String Table → Bool
  | Except.ok _ => true
  | Except.error _ => false

/-- Embedding of the load step of `_main`: the `try` around
`_read_csv_list` turns any raised error into exit code 1. -/
def loadStep (csvList : List (String × Option Frame)) : Except Nat Table :=
  match (readCsvList csvList).1 with
  | Except.error _ => Except.error 1
  | Except.ok t => Except.ok t

/-- A concrete noun row: der Tisch / die Tische / table. -/
def rowNoun : Row :=
  { Article := Cell.str "der", Word := Cell.str "Tisch",
    Plural := Cell.str "Tische", Translation := Cell.str "table",
    Category := Cell.str "noun" }

/-- A concrete non-noun row (a verb, no article, no plural). -/
def rowVerb : Row :=
  { Article := Cell.na, Word := Cell.str "laufen",
    Plural := Cell.na, Translation := Cell.str "to run",
    Category := Cell.str "verb" }

/-- A concrete non-noun row (an adjective). -/
def rowAdj : Row :=
  { Article := Cell.na, Word := Cell.str "schnell",
    Plural := Cell.na, Translation := Cell.str "fast",
    Category := Cell.str "adjective" }

/-- A concrete noun row whose Word cell is absent but whose Article is
the definite-article token itself. -/
def rowNoWord : Row :=
  { Article := Cell.str "die", Word := Cell.na,
    Plural := Cell.na, Translation := Cell.str "cat",
    Category := Cell.str "noun" }

/-- A concrete row whose Category cell is the capitalised word Noun, as
tested by mode train. -/
def rowCapNoun : Row :=
  { Article := Cell.str "das", Word := Cell.str "Haus",
    Plural := Cell.str "Hauser", Translation := Cell.str "house",
    Category := Cell.str "Noun" }

/-- A concrete readable source frame with two columns. -/
def frameA : Frame :=
  { cols := ["Word", "Translation"], rows := [["Haus", "house"]] }

/-- A concrete readable source frame that also has a Plural column. -/
def frameB : Frame :=
  { cols := ["Word", "Plural", "Translation"],
    rows := [["Tisch", "Tische", "table"]] }

/-- A possible sample has exactly the requested length, and the request
cannot exceed the population size. -/
theorem isSample_bounds {pop : List Row} {n : Nat} {s : List Row}
    (h : IsSample pop n s) : s.length = n ∧ n ≤ pop.length := by
  obtain ⟨hlen, t, hsub, hperm⟩ := h
  refine ⟨hlen, ?_⟩
  rw [← hlen, hperm.length_eq]
  exact hsub.length_le

/-- A non-string or empty selected word cell renders to the empty
string, whatever the other fields hold. -/
theorem wordFromRow_empty {row : Row} {plural : Bool}
    (h : (if plural then row.Plural else row.Word) = Cell.na ∨
         (if plural then row.Plural else row.Word) = Cell.str "") :
    wordFromRow row plural = "" := by
  rcases h with h | h <;> cases plural <;>
    simp_all [wordFromRow]

/-- Membership in the deduplicated list, given membership in the input
and absence from the seen accumulator. -/
theorem mem_firstDedupAux {a : String} :
    ∀ (l seen : List String), a ∈ l → a ∉ seen → a ∈ firstDedupAux seen l := by
  intro l
  induction l with
  | nil => intro seen h; cases h
  | cons c rest ih =>
    intro seen hmem hseen
    rw [firstDedupAux]
    by_cases hc : c ∈ seen
    · rw [if_pos hc]
      rcases List.mem_cons.mp hmem with rfl | hrest
      · exact absurd hc hseen
      · exact ih seen hrest hseen
    · rw [if_neg hc]
      rcases List.mem_cons.mp hmem with rfl | hrest
      · exact List.mem_cons_self a _
      · by_cases hac : a = c
        · rw [hac]; exact List.mem_cons_self c _
        · refine List.mem_cons_of_mem c (ih (c :: seen) hrest ?_)
          intro hx
          rcases List.mem_cons.mp hx with h1 | h2
          · exact hac h1
          · exact hseen h2

/-- Membership survives first-occurrence deduplication. -/
theorem mem_firstDedup {a : String} {l : List String} (h : a ∈ l) :
    a ∈ firstDedup l :=
  mem_firstDedupAux l [] h (List.not_mem_nil a)

/-- A column absent from a frame has no position in its column list. -/
theorem colIdx_not_mem {c : String} :
    ∀ cols : List String, c ∉ cols → colIdx cols c = none := by
  intro cols
  induction cols with
  | nil => intro; rfl
  | cons a rest ih =>
    intro h
    have hne : ¬ a = c := by
      intro hac
      exact h (by rw [← hac]; exact List.mem_cons_self a rest)
    rw [colIdx, if_neg hne, ih (fun hr => h (List.mem_cons_of_mem a hr))]
    rfl

/-- A row aligned over a column list its frame lacks carries the absent
marker at that column. -/
theorem cellOf_not_mem {f : Frame} {r : List String} {c : String}
    (h : c ∉ f.cols) : cellOf f r c = Cell.na := by
  rw [cellOf, colIdx_not_mem f.cols h]

/-- C1: the claim as frozen is false on the code.  With a two-row table
holding one verb and one noun and no length argument, the adjusted
length is the full table size 2, while the noun-restricted eligible set
of mode plural and mode article has size 1: the length is not clamped
to the effective (filtered) size, and drawing the sample raises a
ValueError instead of being silent. -/
theorem C1_counterexample :
    adjustLength (List.length [rowVerb, rowNoun]) none = 2 ∧
    (nounFilter [rowVerb, rowNoun]).length = 1 ∧
    sampleRaises (nounFilter [rowVerb, rowNoun])
      (adjustLength (List.length [rowVerb, rowNoun]) none) = true := by
  decide

/-- C1 (amended): for every mode, any possible drawn sample yields at
most full-table-size pairs; for the noun-restricted modes the output is
also bounded by the noun-subset size whenever sampling succeeds, and
sampling the noun subset is silent exactly when the adjusted length
(clamped only to the full table size) does not exceed the subset size
— otherwise it raises. -/
theorem C1_amended (df gs ts s sn : List Row) (lengthArg : Option Nat)
    (noShow : Bool)
    (hs : IsSample df (adjustLength df.length lengthArg) s)
    (hg : IsSample df (adjustLength df.length lengthArg) gs)
    (ht : IsSample df (adjustLength df.length lengthArg) ts)
    (hn : IsSample (nounFilter df) (adjustLength df.length lengthArg) sn) :
    (modeGerman s noShow).length ≤ df.length ∧
    (modeTranslated s noShow).length ≤ df.length ∧
    (modeTrain s noShow).length ≤ df.length ∧
    (modeBothConcat gs ts noShow).length ≤ df.length ∧
    (modePlural sn).length ≤ (nounFilter df).length ∧
    (modeArticle sn).length ≤ (nounFilter df).length ∧
    (sampleRaises (nounFilter df) (adjustLength df.length lengthArg) = false ↔
      adjustLength df.length lengthArg ≤ (nounFilter df).length) := by
  obtain ⟨hs1, hs2⟩ := isSample_bounds hs
  obtain ⟨hg1, hg2⟩ := isSample_bounds hg
  obtain ⟨ht1, ht2⟩ := isSample_bounds ht
  obtain ⟨hn1, hn2⟩ := isSample_bounds hn
  refine ⟨?_, ?_, ?_, ?_, ?_, ?_, ?_⟩
  · rw [modeGerman, List.length_map, hs1]; exact hs2
  · rw [modeTranslated, List.length_map, hs1]; exact hs2
  · rw [modeTrain, List.length_map, hs1]; exact hs2
  · simp only [modeBothConcat, modeGerman, modeTranslated, List.length_append,
      List.length_map, List.length_take, hg1, ht1]
    omega
  · calc (modePlural sn).length ≤ sn.length := List.length_filterMap_le _ _
      _ ≤ (nounFilter df).length := by rw [hn1]; exact hn2
  · rw [modeArticle, List.length_map, hn1]; exact hn2
  · rw [sampleRaises]
    simp only [decide_eq_false_iff_not, Nat.not_lt]

/-- C2: the claim as frozen is false on the code.  With a one-row table
whose only row is an adjective and a requested length of 5, the
adjusted length is 1 (clamped to the full table, not forced to 0), the
noun-filtered eligible set is empty, and drawing the sample raises a
ValueError rather than returning an empty pair sequence. -/
theorem C2_counterexample :
    (∀ r ∈ [rowAdj], r.Category ≠ Cell.str "noun") ∧
    nounFilter [rowAdj] = [] ∧
    adjustLength (List.length [rowAdj]) (some 5) = 1 ∧
    sampleRaises (nounFilter [rowAdj])
      (adjustLength (List.length [rowAdj]) (some 5)) = true := by
  decide

/-- C2 (amended): when no row of the table has category noun, the
eligible set for mode plural and mode article is empty; the strategies
return an empty pair sequence exactly when the effective sample length
is 0, and for every positive effective length the sample draw raises a
ValueError instead. -/
theorem C2_amended (df : List Row) (n : Nat)
    (h : ∀ r ∈ df, r.Category ≠ Cell.str "noun") :
    nounFilter df = [] ∧
    (n = 0 → sampleRaises (nounFilter df) n = false ∧
      IsSample (nounFilter df) n [] ∧
      modePlural [] = [] ∧ modeArticle [] = []) ∧
    (0 < n → sampleRaises (nounFilter df) n = true) := by
  have hnil : nounFilter df = [] := by
    rw [nounFilter, List.filter_eq_nil_iff]
    intro a ha
    simp [h a ha]
  refine ⟨hnil, ?_, ?_⟩
  · rintro rfl
    exact ⟨by simp [sampleRaises],
      ⟨rfl, [], List.nil_sublist _, List.Perm.refl _⟩, rfl, rfl⟩
  · intro hpos
    rw [hnil, sampleRaises]
    simpa using hpos

/-- Witness for the amended C1: a one-noun table with no length argument
satisfies every sampling hypothesis with the table itself as sample. -/
theorem C1_amended_witness :
    IsSample [rowNoun] (adjustLength (List.length [rowNoun]) none) [rowNoun] ∧
    IsSample (nounFilter [rowNoun])
      (adjustLength (List.length [rowNoun]) none) [rowNoun] ∧
    ((modeGerman [rowNoun] false).length ≤ List.length [rowNoun] ∧
     (modeTranslated [rowNoun] false).length ≤ List.length [rowNoun] ∧
     (modeTrain [rowNoun] false).length ≤ List.length [rowNoun] ∧
     (modeBothConcat [rowNoun] [rowNoun] false).length ≤ List.length [rowNoun] ∧
     (modePlural [rowNoun]).length ≤ (nounFilter [rowNoun]).length ∧
     (modeArticle [rowNoun]).length ≤ (nounFilter [rowNoun]).length ∧
     (sampleRaises (nounFilter [rowNoun])
        (adjustLength (List.length [rowNoun]) none) = false ↔
      adjustLength (List.length [rowNoun]) none ≤
        (nounFilter [rowNoun]).length)) := by
  have h1 : IsSample [rowNoun] (adjustLength (List.length [rowNoun]) none)
      [rowNoun] :=
    ⟨rfl, [rowNoun], List.Sublist.refl _, List.Perm.refl _⟩
  have hred : nounFilter [rowNoun] = [rowNoun] := by decide
  have h2 : IsSample (nounFilter [rowNoun])
      (adjustLength (List.length [rowNoun]) none) [rowNoun] := by
    rw [hred]; exact h1
  exact ⟨h1, h2,
    C1_amended [rowNoun] [rowNoun] [rowNoun] [rowNoun] [rowNoun] none false
      h1 h1 h1 h2⟩

/-- Witness for the amended C2: a one-adjective table at effective
length 0. -/
theorem C2_amended_witness :
    (∀ r ∈ [rowAdj], r.Category ≠ Cell.str "noun") ∧
    (nounFilter [rowAdj] = [] ∧
     ((0 : Nat) = 0 → sampleRaises (nounFilter [rowAdj]) 0 = false ∧
       IsSample (nounFilter [rowAdj]) 0 [] ∧
       modePlural [] = [] ∧ modeArticle [] = []) ∧
     (0 < (0 : Nat) → sampleRaises (nounFilter [rowAdj]) 0 = true)) :=
  ⟨by decide, C2_amended [rowAdj] 0 (by decide)⟩

/-- C3: a record whose selected word cell (Word for the singular
rendering, Plural for the plural rendering) is absent or the empty
string renders to the empty string, whatever the Article cell holds —
in particular never a bare article alone. -/
theorem C3_empty_word_renders_empty (row : Row) (plural : Bool)
    (h : (if plural then row.Plural else row.Word) = Cell.na ∨
         (if plural then row.Plural else row.Word) = Cell.str "") :
    wordFromRow row plural = "" ∧
    ∀ a : Cell, wordFromRow { row with Article := a } plural = "" := by
  refine ⟨wordFromRow_empty h, fun a => wordFromRow_empty ?_⟩
  cases plural <;> simpa using h

/-- Witness for C3: a noun row with an absent Word but a present Article
renders the singular to the empty string, not to the article. -/
theorem C3_witness :
    ((if false then rowNoWord.Plural else rowNoWord.Word) = Cell.na ∨
     (if false then rowNoWord.Plural else rowNoWord.Word) = Cell.str "") ∧
    (wordFromRow rowNoWord false = "" ∧
     ∀ a : Cell, wordFromRow { rowNoWord with Article := a } false = "") :=
  ⟨by decide, C3_empty_word_renders_empty rowNoWord false (by decide)⟩

/-- C4: a record with a non-empty string Plural cell renders its plural
as the fixed plural article token followed by a space and the plural
word (the whole rendering stripped of outer whitespace), and the result
never depends on the Article cell of the record. -/
theorem C4_plural_fixed_article (row : Row) (p : String)
    (hp : row.Plural = Cell.str p) (hne : p ≠ "") :
    wordFromRow row true = pyStrip ("die " ++ p) ∧
    ∀ a : Cell,
      wordFromRow { row with Article := a } true = wordFromRow row true := by
  have hlen : ¬ p.length = 0 := by
    intro h0
    apply hne
    cases p with
    | mk data => simp [List.length_eq_zero.mp h0]
  refine ⟨?_, fun a => rfl⟩
  rw [wordFromRow]
  simp only [if_true, hp, hlen, ite_false, if_neg hlen]
  rfl

/-- Witness for C4 at the concrete noun row: die Tische. -/
theorem C4_witness :
    rowNoun.Plural = Cell.str "Tische" ∧ "Tische" ≠ "" ∧
    (wordFromRow rowNoun true = pyStrip ("die " ++ "Tische") ∧
     ∀ a : Cell,
       wordFromRow { rowNoun with Article := a } true =
         wordFromRow rowNoun true) :=
  ⟨rfl, by decide, C4_plural_fixed_article rowNoun "Tische" rfl (by decide)⟩

/-- C5: every pair produced by mode plural on any drawn sample comes
from a sampled row whose plural rendering is non-empty, its test being
the singular rendering and its expected answer the plural rendering
followed by the translation in parentheses; rows with an
empty plural rendering contribute no pair. -/
theorem C5_plural_mode_pairs (sample : List Row) (pr : Cell × Cell)
    (h : pr ∈ modePlural sample) :
    ∃ row, row ∈ sample ∧ wordFromRow row true ≠ "" ∧
      pr = (Cell.str (wordFromRow row false),
        Cell.str (wordFromRow row true ++ " (" ++
          row.Translation.toPy ++ ")")) := by
  rw [modePlural, List.mem_filterMap] at h
  obtain ⟨row, hmem, hf⟩ := h
  by_cases hc : (wordFromRow row true).length = 0
  · simp [hc] at hf
  · refine ⟨row, hmem, ?_, ?_⟩
    · intro he
      rw [he] at hc
      exact hc rfl
    · simp only [hc, ite_false, if_neg hc, Option.some.injEq] at hf
      exact hf.symm

/-- Witness for C5: the pair produced from the concrete noun row. -/
theorem C5_witness :
    (Cell.str "der Tisch", Cell.str "die Tische (table)") ∈
      modePlural [rowNoun] ∧
    ∃ row, row ∈ [rowNoun] ∧ wordFromRow row true ≠ "" ∧
      (Cell.str "der Tisch", Cell.str "die Tische (table)") =
        (Cell.str (wordFromRow row false),
         Cell.str (wordFromRow row true ++ " (" ++
           row.Translation.toPy ++ ")")) :=
  ⟨by decide, C5_plural_mode_pairs [rowNoun]
    (Cell.str "der Tisch", Cell.str "die Tische (table)") (by decide)⟩

/-- C6: for mode both with per-submode sample size n, any shuffled
output (any permutation of the tagged concatenation) has length exactly
n / 2 + n / 2 (integer division), with every pair coming tagged as
German or as Translated.  Each submode batch is drawn independently in
full and truncated to its first n / 2 pairs before tagging. -/
theorem C6_both_length_and_tags (gs ts : List Row) (n : Nat) (noShow : Bool)
    (hg : gs.length = n) (ht : ts.length = n)
    (out : List (Cell × Cell))
    (hperm : out.Perm (modeBothConcat gs ts noShow)) :
    out.length = n / 2 + n / 2 ∧
    ∀ pr ∈ out,
      (∃ s0 : String, pr.1 = Cell.str ("(German) " ++ s0)) ∨
      (∃ s0 : String, pr.1 = Cell.str ("(Translated) " ++ s0)) := by
  constructor
  · rw [hperm.length_eq]
    simp only [modeBothConcat, modeGerman, modeTranslated, List.length_append,
      List.length_map, List.length_take, hg, ht]
    omega
  · intro pr hpr
    have hpr2 : pr ∈ modeBothConcat gs ts noShow := hperm.mem_iff.mp hpr
    simp only [modeBothConcat, List.mem_append, List.mem_map] at hpr2
    rcases hpr2 with ⟨q, hq, heq⟩ | ⟨q, hq, heq⟩
    · exact Or.inl ⟨q.1.toPy, by rw [← heq]; rfl⟩
    · exact Or.inr ⟨q.1.toPy, by rw [← heq]; rfl⟩

/-- Witness for C6: two-row samples at n = 2, with the identity
permutation as the shuffle outcome. -/
theorem C6_witness :
    List.length [rowNoun, rowVerb] = 2 ∧
    (modeBothConcat [rowNoun, rowVerb] [rowNoun, rowVerb] false).Perm
      (modeBothConcat [rowNoun, rowVerb] [rowNoun, rowVerb] false) ∧
    ((modeBothConcat [rowNoun, rowVerb] [rowNoun, rowVerb] false).length =
       2 / 2 + 2 / 2 ∧
     ∀ pr ∈ modeBothConcat [rowNoun, rowVerb] [rowNoun, rowVerb] false,
       (∃ s0 : String, pr.1 = Cell.str ("(German) " ++ s0)) ∨
       (∃ s0 : String, pr.1 = Cell.str ("(Translated) " ++ s0))) :=
  ⟨rfl, List.Perm.refl _,
    C6_both_length_and_tags [rowNoun, rowVerb] [rowNoun, rowVerb] 2 false
      rfl rfl _ (List.Perm.refl _)⟩

/-- C7: every pair produced by mode train on any drawn sample comes from
a sampled row; its expected answer is the raw Translation cell, and its
test is the singular rendering, extended with the plural rendering
joined by a comma exactly when the Category cell is the capitalised
word Noun, and prefixed with the bracketed category unless the
show-category flag is disabled. -/
theorem C7_train_pairs (sample : List Row) (noShow : Bool)
    (pr : Cell × Cell) (h : pr ∈ modeTrain sample noShow) :
    ∃ row, row ∈ sample ∧ pr.2 = row.Translation ∧
      ∃ base : String,
        ((row.Category = Cell.str "Noun" ∧
            base = wordFromRow row false ++ ", " ++ wordFromRow row true) ∨
         (row.Category ≠ Cell.str "Noun" ∧ base = wordFromRow row false)) ∧
        pr.1 = (if noShow then Cell.str base
          else Cell.str ("[" ++ row.Category.toPy ++ "] " ++ base)) := by
  rw [modeTrain, List.mem_map] at h
  obtain ⟨row, hmem, heq⟩ := h
  subst heq
  by_cases hcat : row.Category = Cell.str "Noun"
  · refine ⟨row, hmem, rfl,
      wordFromRow row false ++ ", " ++ wordFromRow row true,
      Or.inl ⟨hcat, rfl⟩, ?_⟩
    cases noShow <;> simp [hcat]
  · refine ⟨row, hmem, rfl, wordFromRow row false, Or.inr ⟨hcat, rfl⟩, ?_⟩
    cases noShow <;> simp [hcat]

/-- Witness for C7: the pair produced from a row with the capitalised
Noun category, category tag shown. -/
theorem C7_witness :
    (Cell.str "[Noun] das Haus, die Hauser", Cell.str "house") ∈
      modeTrain [rowCapNoun] false ∧
    ∃ row, row ∈ [rowCapNoun] ∧
      (Cell.str "[Noun] das Haus, die Hauser", Cell.str "house").2 =
        row.Translation ∧
      ∃ base : String,
        ((row.Category = Cell.str "Noun" ∧
            base = wordFromRow row false ++ ", " ++ wordFromRow row true) ∨
         (row.Category ≠ Cell.str "Noun" ∧ base = wordFromRow row false)) ∧
        (Cell.str "[Noun] das Haus, die Hauser", Cell.str "house").1 =
          (if false then Cell.str base
           else Cell.str ("[" ++ row.Category.toPy ++ "] " ++ base)) :=
  ⟨by decide, C7_train_pairs [rowCapNoun] false
    (Cell.str "[Noun] das Haus, die Hauser", Cell.str "house") (by decide)⟩

/-- The log stream of the loader is one record per unreadable source, in
input order. -/
theorem filterMapLogAux :
    ∀ l : List (String × Option Frame),
      (l.filterMap fun s =>
        match s.2 with
        | none => some ({ level := LogLevel.error, src := s.1 } : LogMsg)
        | some _ => none) =
      (l.filter fun s => s.2.isNone).map
        fun s => ({ level := LogLevel.error, src := s.1 } : LogMsg) := by
  intro l
  induction l with
  | nil => rfl
  | cons s rest ih =>
    obtain ⟨nm, fr⟩ := s
    cases fr <;>
      simp [List.filterMap_cons, List.filter_cons, Option.isNone, ih]

/-- C8: the claim as frozen is false on the code in its logging part.
With one readable and one unreadable source the loader succeeds, but
the single log record it emits for the failed source is at the error
level, not the warning level the claim states. -/
theorem C8_counterexample :
    exceptIsOk (readCsvList [("a.csv", some frameA), ("bad.csv", none)]).1 =
      true ∧
    (readCsvList [("a.csv", some frameA), ("bad.csv", none)]).2 =
      [{ level := LogLevel.error, src := "bad.csv" }] ∧
    ((readCsvList [("a.csv", some frameA), ("bad.csv", none)]).2.countP
      fun m => m.level == LogLevel.warning) = 0 := by
  decide

/-- C8 (amended): the loader fails exactly when every given source is
unreadable; it emits one error-level log record per failed source and
otherwise returns the table built from the readable remainder, and a
total load failure makes the run return the failure exit code 1. -/
theorem C8_amended (csvList : List (String × Option Frame)) :
    (exceptIsOk (readCsvList csvList).1 = false ↔
      ∀ s ∈ csvList, s.2 = none) ∧
    (readCsvList csvList).2 =
      ((csvList.filter fun s => s.2.isNone).map
        fun s => { level := LogLevel.error, src := s.1 }) ∧
    (∀ m ∈ (readCsvList csvList).2, m.level = LogLevel.error) ∧
    (exceptIsOk (readCsvList csvList).1 = false →
      loadStep csvList = Except.error 1) ∧
    (∀ t, (readCsvList csvList).1 = Except.ok t →
      loadStep csvList = Except.ok t) := by
  have hlogs : (readCsvList csvList).2 =
      ((csvList.filter fun s => s.2.isNone).map
        fun s => { level := LogLevel.error, src := s.1 }) :=
    filterMapLogAux csvList
  have hfst : (readCsvList csvList).1 =
      if (csvList.filterMap Prod.snd).isEmpty
      then Except.error "No objects to concatenate"
      else Except.ok (concatFrames (csvList.filterMap Prod.snd)) := rfl
  have hiff : (csvList.filterMap Prod.snd).isEmpty = true ↔
      ∀ s ∈ csvList, s.2 = none := by
    rw [List.isEmpty_iff, List.filterMap_eq_nil_iff]
  have hload2 : ∀ t, (readCsvList csvList).1 = Except.ok t →
      loadStep csvList = Except.ok t := by
    intro t ht
    simp only [loadStep, ht]
  refine ⟨?_, hlogs, ?_, ?_, hload2⟩
  · rw [hfst]
    by_cases hemp : (csvList.filterMap Prod.snd).isEmpty = true
    · rw [if_pos hemp]
      exact iff_of_true rfl (hiff.mp hemp)
    · rw [if_neg hemp]
      exact iff_of_false (by simp [exceptIsOk])
        fun hall => hemp (hiff.mpr hall)
  · intro m hm
    rw [hlogs] at hm
    obtain ⟨s, _, rfl⟩ := List.mem_map.mp hm
    rfl
  · intro hfail
    cases hval : (readCsvList csvList).1 with
    | error e => simp only [loadStep, hval]
    | ok t =>
      rw [hval] at hfail
      simp [exceptIsOk] at hfail

/-- Witness for the amended C8 at a concrete mixed source list. -/
theorem C8_amended_witness :
    (exceptIsOk (readCsvList [("x.csv", none), ("y.csv", some frameB)]).1 =
        false ↔
      ∀ s ∈ [("x.csv", none), ("y.csv", some frameB)], s.2 = none) ∧
    (readCsvList [("x.csv", none), ("y.csv", some frameB)]).2 =
      (([("x.csv", (none : Option Frame)), ("y.csv", some frameB)].filter
          fun s => s.2.isNone).map
        fun s => { level := LogLevel.error, src := s.1 }) ∧
    (∀ m ∈ (readCsvList [("x.csv", none), ("y.csv", some frameB)]).2,
      m.level = LogLevel.error) ∧
    (exceptIsOk (readCsvList [("x.csv", none), ("y.csv", some frameB)]).1 =
        false →
      loadStep [("x.csv", none), ("y.csv", some frameB)] = Except.error 1) ∧
    (∀ t, (readCsvList [("x.csv", none), ("y.csv", some frameB)]).1 =
        Except.ok t →
      loadStep [("x.csv", none), ("y.csv", some frameB)] = Except.ok t) :=
  C8_amended [("x.csv", none), ("y.csv", some frameB)]

/-- C9: whenever some source is readable the load succeeds, every column
of every readable source appears among the unified columns, and each
row of a source lacking a column joins the unified table carrying the
absent marker at that column. -/
theorem C9_column_union (csvList : List (String × Option Frame))
    (nm : String) (f : Frame) (hf : (nm, some f) ∈ csvList)
    (c : String) (hc : c ∉ f.cols) :
    exceptIsOk (readCsvList csvList).1 = true ∧
    ∀ t, (readCsvList csvList).1 = Except.ok t →
      (∀ g ∈ csvList.filterMap Prod.snd, ∀ c2 ∈ g.cols, c2 ∈ t.cols) ∧
      ∀ r ∈ f.rows,
        alignRow t.cols f r ∈ t.rows ∧
        ∀ j : Nat, t.cols[j]? = some c →
          (alignRow t.cols f r)[j]? = some Cell.na := by
  have hmem : f ∈ csvList.filterMap Prod.snd :=
    List.mem_filterMap.mpr ⟨(nm, some f), hf, rfl⟩
  have hne : ¬ ((csvList.filterMap Prod.snd).isEmpty = true) := by
    cases hl : csvList.filterMap Prod.snd with
    | nil => rw [hl] at hmem; cases hmem
    | cons a l => simp
  have hfst : (readCsvList csvList).1 =
      if (csvList.filterMap Prod.snd).isEmpty
      then Except.error "No objects to concatenate"
      else Except.ok (concatFrames (csvList.filterMap Prod.snd)) := rfl
  have hok : (readCsvList csvList).1 =
      Except.ok (concatFrames (csvList.filterMap Prod.snd)) := by
    rw [hfst, if_neg hne]
  constructor
  · rw [hok]; rfl
  · intro t ht
    rw [hok] at ht
    injection ht with ht
    subst ht
    constructor
    · intro g hg c2 hc2
      show c2 ∈ firstDedup (((csvList.filterMap Prod.snd).map Frame.cols).flatten)
      exact mem_firstDedup
        (List.mem_flatten.mpr ⟨g.cols, List.mem_map_of_mem Frame.cols hg, hc2⟩)
    · intro r hr
      constructor
      · show _ ∈ (((csvList.filterMap Prod.snd).map
          fun f0 => f0.rows.map
            (alignRow (firstDedup
              (((csvList.filterMap Prod.snd).map Frame.cols).flatten)) f0)).flatten)
        exact List.mem_flatten.mpr
          ⟨_, List.mem_map_of_mem _ hmem, List.mem_map_of_mem _ hr⟩
      · intro j hj
        rw [alignRow, List.getElem?_map, hj]
        simp [cellOf_not_mem hc]

/-- Witness for C9: two concrete readable sources, the first lacking the
Plural column; its row joins the unified table with an absent Plural. -/
theorem C9_witness :
    ("a.csv", some frameA) ∈
      [("a.csv", some frameA), ("b.csv", some frameB)] ∧
    "Plural" ∉ frameA.cols ∧
    (exceptIsOk
        (readCsvList [("a.csv", some frameA), ("b.csv", some frameB)]).1 =
      true ∧
    ∀ t, (readCsvList [("a.csv", some frameA), ("b.csv", some frameB)]).1 =
        Except.ok t →
      (∀ g ∈ [("a.csv", some frameA),
          ("b.csv", some frameB)].filterMap Prod.snd,
        ∀ c2 ∈ g.cols, c2 ∈ t.cols) ∧
      ∀ r ∈ frameA.rows,
        alignRow t.cols frameA r ∈ t.rows ∧
        ∀ j : Nat, t.cols[j]? = some "Plural" →
          (alignRow t.cols frameA r)[j]? = some Cell.na) :=
  ⟨by decide, by decide,
    C9_column_union [("a.csv", some frameA), ("b.csv", some frameB)]
      "a.csv" frameA (by decide) "Plural" (by decide)⟩

/-- C10: in mode article no sampled row is dropped — the output has one
pair per sampled row, in order — and a sampled row whose Word cell is
absent or empty yields the pair whose test is that raw Word cell (the
non-string absent marker included) and whose expected answer is the
empty string. -/
theorem C10_article_keeps_empty_words (sample : List Row) (i : Nat)
    (row : Row) (hi : sample[i]? = some row)
    (hw : row.Word = Cell.na ∨ row.Word = Cell.str "") :
    (modeArticle sample).length = sample.length ∧
    (modeArticle sample)[i]? = some (row.Word, Cell.str "") := by
  have hwr : wordFromRow row false = "" :=
    wordFromRow_empty (by simpa using hw)
  constructor
  · rw [modeArticle, List.length_map]
  · rw [modeArticle, List.getElem?_map, hi]
    simp [hwr]

/-- Witness for C10: the noun row with an absent Word produces the pair
with the raw absent marker as test and the empty expected answer. -/
theorem C10_witness :
    ([rowNoWord])[0]? = some rowNoWord ∧
    (rowNoWord.Word = Cell.na ∨ rowNoWord.Word = Cell.str "") ∧
    ((modeArticle [rowNoWord]).length = List.length [rowNoWord] ∧
     (modeArticle [rowNoWord])[0]? = some (rowNoWord.Word, Cell.str "")) :=
  ⟨rfl, by decide,
    C10_article_keeps_empty_words [rowNoWord] 0 rowNoWord rfl (by decide)⟩

end WordShuffler
